import Mathlib

/-!
Verification of the `bro-ai-backend` service (`src/app.py`): a shallow
embedding of its formatter `format_chat_data` and its HTTP handler
`handle_process_message`, together with theorems settling the frozen
claims about them.

The embedding models the Python values a parsed JSON body can take, the
Python operations the handler applies to them (`not`, `in`, subscription,
iteration, `str()` interpolation, `str.strip()`), and the control flow
of the handler, with a raised exception modelled as `Except.error`.  The
external agent runtime (`crew.kickoff`) is an opaque collaborator and is
passed to the handler as a parameter: either a raised exception or a
result object carrying a raw output string.
-/

set_option autoImplicit false

namespace BroAi

/-- A Python exception kind, as far as the code of the handler can raise one. -/
inductive PyErr where
  | keyError (key : String)
  | typeError
  deriving DecidableEq, Repr

/-- A Python value obtained by parsing a JSON body (`request.get_json()`):
strings, integers, booleans, `None`, lists and string-keyed dicts. -/
inductive PyVal where
  | str (s : String)
  | int (n : Int)
  | bool (b : Bool)
  | none
  | list (l : List PyVal)
  | dict (d : List (String × PyVal))

/-- Python truthiness (`bool(v)`) of a parsed-JSON value: empty strings,
zero, `False`, `None`, empty lists and empty dicts are falsy. -/
def PyVal.truthy : PyVal → Bool
  | .str s => !(s == "")
  | .int n => !(n == 0)
  | .bool b => b
  | .none => false
  | .list l => !l.isEmpty
  | .dict d => !d.isEmpty

/-- Does the character list `pat` match the front of `hay`? -/
def listLeadMatch : List Char → List Char → Bool
  | [], _ => true
  | _ :: _, [] => false
  | p :: ps, c :: cs => p == c && listLeadMatch ps cs

/-- Does the character list `pat` occur contiguously anywhere in `hay`? -/
def subOcc : List Char → List Char → Bool
  | [], pat => pat.isEmpty
  | c :: rest, pat => listLeadMatch pat (c :: rest) || subOcc rest pat

/-- Python substring containment `pat in s` for strings. -/
def pyStrContains (s pat : String) : Bool :=
  pat.data.isEmpty || subOcc s.data pat.data

/-- The Python containment test `k in v` with a string `k` on the left:
key containment for a dict, element equality for a list (a `str` equals
only an equal `str`), substring containment for a string, and a
`TypeError` on the remaining non-container values. -/
def PyVal.pyContains : PyVal → String → Except PyErr Bool
  | .dict d, k => .ok (d.any (fun p => p.1 == k))
  | .list l, k =>
      .ok (l.any (fun v => match v with | .str s => s == k | _ => false))
  | .str s, k => .ok (pyStrContains s k)
  | _, _ => .error .typeError

/-- Python subscription `v[k]` with a string key: dict lookup (first
matching key), raising `KeyError` when the key is absent and `TypeError`
when `v` is not a dict (string, list and integer indices must not be
strings). -/
def PyVal.getItem : PyVal → String → Except PyErr PyVal
  | .dict d, k =>
      match d.find? (fun p => p.1 == k) with
      | some p => .ok p.2
      | Option.none => .error (.keyError k)
  | _, _ => .error .typeError

/-- Python iteration `for x in v`: a list yields its elements, a string
yields its characters as one-character strings, a dict yields its keys,
and the remaining values raise `TypeError`. -/
def pyIter : PyVal → Except PyErr (List PyVal)
  | .list l => .ok l
  | .str s => .ok (s.data.map (fun c => .str c.toString))
  | .dict d => .ok (d.map (fun p => PyVal.str p.1))
  | _ => .error .typeError

/-- The Python `repr()` of a string: quoted, preferring single quotes, with
backslash, quote and common control characters escaped.  (Escapes of
other non-printable characters are not modelled; no claim exercises
them.) -/
def pyReprStr (s : String) : String :=
  let q : Char := if s.contains '\x27' && !(s.contains '"') then '"' else '\x27'
  let esc : Char → String := fun c =>
    if c == '\\' then "\\\\"
    else if c == q then "\\" ++ q.toString
    else if c == '\n' then "\\n"
    else if c == '\r' then "\\r"
    else if c == '\t' then "\\t"
    else c.toString
  q.toString ++ String.join (s.data.map esc) ++ q.toString

mutual

/-- The Python `repr()` of a parsed-JSON value. -/
def PyVal.pyRepr : PyVal → String
  | .str s => pyReprStr s
  | .int n => toString n
  | .bool b => if b then "True" else "False"
  | .none => "None"
  | .list l => "[" ++ String.intercalate ", " (pyReprList l) ++ "]"
  | .dict d => "\x7b" ++ String.intercalate ", " (pyReprPairs d) ++ "\x7d"

/-- Applies `repr()` to each element of a list. -/
def pyReprList : List PyVal → List String
  | [] => []
  | v :: vs => v.pyRepr :: pyReprList vs

/-- Applies `repr()` to each key-value entry of a dict. -/
def pyReprPairs : List (String × PyVal) → List String
  | [] => []
  | (k, v) :: ps => (pyReprStr k ++ ": " ++ v.pyRepr) :: pyReprPairs ps

end

/-- The Python `str()` of a parsed-JSON value, as f-string interpolation
applies it: the identity on strings, `repr()`-like on everything else. -/
def PyVal.pyStr : PyVal → String
  | .str s => s
  | v => v.pyRepr

/-- Python whitespace for `str.strip()` (the ASCII whitespace
characters; `strip` on wider Unicode whitespace is not exercised by any
claim). -/
def pyIsSpace (c : Char) : Bool :=
  c == ' ' || c == '\t' || c == '\n' || c == '\r' || c == '\x0b' || c == '\x0c'

/-- Python `s.strip()`: remove leading and trailing whitespace. -/
def pyStrip (s : String) : String :=
  String.mk (((s.data.dropWhile pyIsSpace).reverse.dropWhile pyIsSpace).reverse)

/-- The sentinel string the agent returns when it elects not to reply
(`NO_RESPONSE_MARKER` in `app.py`). -/
def NO_RESPONSE_MARKER : String := "NO_RESPONSE"

/-- One transcript line per history entry, in order: for each entry the
line opens with a bracketed sender, then a colon, a space and the text,
propagating the first raised exception (the list comprehension inside
`format_chat_data`). -/
def formatLines : List PyVal → Except PyErr (List String)
  | [] => .ok []
  | m :: ms =>
    match m.getItem "sender" with
    | .error e => .error e
    | .ok s =>
      match m.getItem "text" with
      | .error e => .error e
      | .ok t =>
        match formatLines ms with
        | .error e => .error e
        | .ok rest => .ok (("[" ++ s.pyStr ++ "]: " ++ t.pyStr) :: rest)

/-- The function `format_chat_data` of `app.py`: the
newline-joined transcript of the history and the single formatted line
for the new message, with any Python exception propagated as
`Except.error`. -/
def format_chat_data (history new_message : PyVal) :
    Except PyErr (String × String) :=
  match pyIter history with
  | .error e => .error e
  | .ok items =>
    match formatLines items with
    | .error e => .error e
    | .ok lines =>
      match new_message.getItem "sender" with
      | .error e => .error e
      | .ok s =>
        match new_message.getItem "text" with
        | .error e => .error e
        | .ok t =>
          .ok (String.intercalate "\n" lines,
               "[" ++ s.pyStr ++ "]: " ++ t.pyStr)

/-- The result object `crew.kickoff` returns: its `raw` attribute holds
the raw output text of the agent. -/
structure CrewOutput where
  raw : String

/-- An HTTP response: status code and JSON body (`jsonify(...), status`). -/
structure HttpResponse where
  status : Nat
  body : PyVal

/-- What one call of `handle_process_message` did: the response it
produced (or the exception that escaped it), whether `crew.kickoff` was
invoked, and whether `format_chat_data` was invoked. -/
structure HandlerTrace where
  response : Except PyErr HttpResponse
  agentInvoked : Bool
  formatterInvoked : Bool

/-- The incoming HTTP request as the handler sees it: whether
`request.is_json` holds, and the parsed JSON body `request.get_json()`
(meaningful only when it does). -/
structure PyRequest where
  is_json : Bool
  body : PyVal

/-- The error body the handler sends: a one-field dict mapping the key
error to the message. -/
def errBody (msg : String) : PyVal := .dict [("error", .str msg)]

/-- The validation test of `app.py` line 139, with the left-to-right
short-circuiting of the Python `or`: falsy data, or any of the keys
chat_id, new_message, history failing the containment test.  `.ok true` means the request is
rejected as missing fields; an exception from a containment test
propagates. -/
def validateMissing (data : PyVal) : Except PyErr Bool :=
  if data.truthy = false then .ok true
  else
    match data.pyContains "chat_id" with
    | .error e => .error e
    | .ok false => .ok true
    | .ok true =>
      match data.pyContains "new_message" with
      | .error e => .error e
      | .ok false => .ok true
      | .ok true =>
        match data.pyContains "history" with
        | .error e => .error e
        | .ok c => .ok (!c)

/-- Lines 168-175 of `app.py`: `response_text` starts as `None` and
becomes the stripped raw output only when `crew_result` is truthy, its
`raw` is a non-empty string, and the stripped raw differs from the
sentinel. -/
def interpretResult (crew_result : Option CrewOutput) : PyVal :=
  match crew_result with
  | some co =>
      if co.raw != "" && pyStrip co.raw != NO_RESPONSE_MARKER then
        .str (pyStrip co.raw)
      else .none
  | Option.none => .none

/-- The function `handle_process_message` of `app.py`: JSON check, field-presence
validation, field extraction (outside any `try`, so its exceptions
escape), formatting inside a `try` mapped to the 500 formatting error,
then the agent call inside a `try` mapped to the 500 processing error,
and otherwise the 200 response carrying `response_text`.  The agent
runtime is the parameter `agent`: `.error e` models `crew.kickoff`
raising, `.ok r` models it returning `r` (with `Option.none` a falsy
result object). -/
def handle_process_message (req : PyRequest)
    (agent : Except PyErr (Option CrewOutput)) : HandlerTrace :=
  if req.is_json = false then
    ⟨.ok ⟨400, errBody "Request must be JSON"⟩, false, false⟩
  else
    match validateMissing req.body with
    | .error e => ⟨.error e, false, false⟩
    | .ok true =>
      ⟨.ok ⟨400, errBody "Missing required fields: chat_id, new_message, history"⟩,
       false, false⟩
    | .ok false =>
      match req.body.getItem "chat_id" with
      | .error e => ⟨.error e, false, false⟩
      | .ok _chat_id =>
        match req.body.getItem "new_message" with
        | .error e => ⟨.error e, false, false⟩
        | .ok new_message =>
          match req.body.getItem "history" with
          | .error e => ⟨.error e, false, false⟩
          | .ok history =>
            match format_chat_data history new_message with
            | .error _ =>
              ⟨.ok ⟨500, errBody "Internal server error formatting data"⟩,
               false, true⟩
            | .ok _ =>
              match agent with
              | .error _ =>
                ⟨.ok ⟨500, errBody "Internal server error processing message with AI"⟩,
                 true, true⟩
              | .ok crew_result =>
                ⟨.ok ⟨200, .dict [("response_text", interpretResult crew_result)]⟩,
                 true, true⟩

/-- A history or new-message entry that is a dict with string `sender`
and `text` fields first, possibly followed by further fields. -/
def msgVal (s t : String) (extra : List (String × PyVal)) : PyVal :=
  .dict (("sender", .str s) :: ("text", .str t) :: extra)

/-- The well-formed request of the worked example of the spec. -/
def exampleReq : PyRequest :=
  ⟨true, .dict [("chat_id", .int 1),
                ("new_message", msgVal "Bro" "how are you" []),
                ("history", .list [msgVal "Alice" "hi" []])]⟩

-- Sanity checks of the embedding on concrete inputs.
example : format_chat_data (.list [msgVal "Alice" "hi" []]) (msgVal "Bro" "how are you" [])
    = .ok ("[Alice]: hi", "[Bro]: how are you") := rfl
example : pyStrip "  NO_RESPONSE\n" = "NO_RESPONSE" := rfl
example : (handle_process_message exampleReq (.ok (some ⟨"Все отлично"⟩))).response
    = .ok ⟨200, .dict [("response_text", .str "Все отлично")]⟩ := rfl
example : (handle_process_message exampleReq (.ok (some ⟨" NO_RESPONSE "⟩))).response
    = .ok ⟨200, .dict [("response_text", PyVal.none)]⟩ := rfl
example : (handle_process_message exampleReq (.ok (some ⟨""⟩))).response
    = .ok ⟨200, .dict [("response_text", PyVal.none)]⟩ := rfl
example : validateMissing (.list [.str "chat_id", .str "new_message", .str "history"])
    = .ok false := rfl
example : (handle_process_message
    ⟨true, .list [.str "chat_id", .str "new_message", .str "history"]⟩
    (.ok Option.none)).response = .error .typeError := rfl


/-! ## Helper lemmas -/

theorem getItem_msgVal_sender (s t : String) (extra : List (String × PyVal)) :
    (msgVal s t extra).getItem "sender" = .ok (.str s) := rfl

theorem getItem_msgVal_text (s t : String) (extra : List (String × PyVal)) :
    (msgVal s t extra).getItem "text" = .ok (.str t) := rfl

theorem pyStr_str (s : String) : (PyVal.str s).pyStr = s := rfl

theorem formatLines_msgVal
    (hist : List (String × String × List (String × PyVal))) :
    formatLines (hist.map fun e => msgVal e.1 e.2.1 e.2.2)
      = .ok (hist.map fun e => "[" ++ e.1 ++ "]: " ++ e.2.1) := by
  induction hist with
  | nil => rfl
  | cons hd tl ih =>
    simp only [List.map_cons, formatLines, getItem_msgVal_sender,
      getItem_msgVal_text, pyStr_str, ih]

/-! ## Claim theorems -/

/-- C1: for every list of history messages (dicts whose sender and text
fields are strings) and every new message of the same shape, the
formatter returns, without raising, the transcript with exactly one line
per history entry, each line a bracketed sender followed by a colon, a
space and the text, in input order, joined by newlines, and separately
the single line for the new message in the same format. -/
theorem c1_formatter_transcript
    (hist : List (String × String × List (String × PyVal)))
    (s t : String) (extra : List (String × PyVal)) :
    format_chat_data (.list (hist.map fun e => msgVal e.1 e.2.1 e.2.2))
        (msgVal s t extra)
      = .ok (String.intercalate "\n"
               (hist.map fun e => "[" ++ e.1 ++ "]: " ++ e.2.1),
             "[" ++ s ++ "]: " ++ t) := by
  simp only [format_chat_data, pyIter, formatLines_msgVal,
    getItem_msgVal_sender, getItem_msgVal_text, pyStr_str]

/-- C10: for the empty history list and any well-formed new message, the
formatter succeeds and returns the empty string as the transcript,
together with the single formatted new-message line. -/
theorem c10_empty_history_transcript (s t : String)
    (extra : List (String × PyVal)) :
    format_chat_data (.list []) (msgVal s t extra)
      = .ok ("", "[" ++ s ++ "]: " ++ t) := by
  simp only [format_chat_data, pyIter, formatLines,
    getItem_msgVal_sender, getItem_msgVal_text, pyStr_str]
  rfl

/-- C6: for every request whose body is not JSON, the handler returns
status 400 with the static JSON-required error body, runs no formatting
and invokes no agent. -/
theorem c6_non_json_400 (body : PyVal)
    (agent : Except PyErr (Option CrewOutput)) :
    handle_process_message ⟨false, body⟩ agent
      = ⟨.ok ⟨400, errBody "Request must be JSON"⟩, false, false⟩ := rfl

/-- Every non-exceptional response of the handler is a 400, a 500, or
the 200 success response whose body carries the interpretation of the
agent result. -/
theorem handle_ok_response_cases (req : PyRequest)
    (agent : Except PyErr (Option CrewOutput)) (resp : HttpResponse)
    (h : (handle_process_message req agent).response = .ok resp) :
    resp.status = 400 ∨ resp.status = 500 ∨
      (resp.status = 200 ∧ ∃ cr, agent = .ok cr ∧
        resp.body = PyVal.dict [("response_text", interpretResult cr)]) := by
  unfold handle_process_message at h
  split at h
  · cases h; exact Or.inl rfl
  · split at h
    · simp at h
    · cases h; exact Or.inl rfl
    · split at h
      · simp at h
      · split at h
        · simp at h
        · split at h
          · simp at h
          · split at h
            · cases h; exact Or.inr (Or.inl rfl)
            · split at h
              · cases h; exact Or.inr (Or.inl rfl)
              · cases h
                rename_i cr
                exact Or.inr (Or.inr ⟨rfl, cr, rfl, rfl⟩)

/-- C2: for every agent-runtime result whose raw output strips to the
sentinel, any success (status 200) response of the handler has the body
mapping response_text to null. -/
theorem c2_sentinel_null (req : PyRequest) (raw : String)
    (resp : HttpResponse)
    (hstrip : pyStrip raw = NO_RESPONSE_MARKER)
    (hok : (handle_process_message req (.ok (some ⟨raw⟩))).response = .ok resp)
    (hst : resp.status = 200) :
    resp.body = PyVal.dict [("response_text", PyVal.none)] := by
  rcases handle_ok_response_cases req _ resp hok with h4 | h5 | ⟨_, cr, hcr, hbody⟩
  · omega
  · omega
  · cases hcr
    rw [hbody]
    simp [interpretResult, hstrip]

/-- C2 witness: a concrete whitespace-padded sentinel output yields a
200 response whose body maps response_text to null. -/
theorem c2_sentinel_null_witness :
    pyStrip "  NO_RESPONSE\n" = NO_RESPONSE_MARKER ∧
    (handle_process_message exampleReq
        (.ok (some ⟨"  NO_RESPONSE\n"⟩))).response
      = .ok ⟨200, PyVal.dict [("response_text", PyVal.none)]⟩ ∧
    (⟨200, PyVal.dict [("response_text", PyVal.none)]⟩ : HttpResponse).body
      = PyVal.dict [("response_text", PyVal.none)] :=
  ⟨rfl, rfl,
   c2_sentinel_null exampleReq "  NO_RESPONSE\n"
     ⟨200, PyVal.dict [("response_text", PyVal.none)]⟩ rfl rfl rfl⟩

/-- C3: for every agent-runtime result whose raw output is non-empty
and strips to something other than the sentinel, any success (status
200) response of the handler has the body mapping response_text to the
stripped raw output. -/
theorem c3_reply_trimmed (req : PyRequest) (raw : String)
    (resp : HttpResponse)
    (hne : raw ≠ "")
    (hnm : pyStrip raw ≠ NO_RESPONSE_MARKER)
    (hok : (handle_process_message req (.ok (some ⟨raw⟩))).response = .ok resp)
    (hst : resp.status = 200) :
    resp.body = PyVal.dict [("response_text", PyVal.str (pyStrip raw))] := by
  rcases handle_ok_response_cases req _ resp hok with h4 | h5 | ⟨_, cr, hcr, hbody⟩
  · omega
  · omega
  · cases hcr
    rw [hbody]
    simp [interpretResult, bne_iff_ne, hne, hnm]

/-- C3 witness: the worked example of the spec, with the agent returning
a concrete non-sentinel reply. -/
theorem c3_reply_trimmed_witness :
    ("Все отлично" : String) ≠ "" ∧
    pyStrip "Все отлично" ≠ NO_RESPONSE_MARKER ∧
    (handle_process_message exampleReq
        (.ok (some ⟨"Все отлично"⟩))).response
      = .ok ⟨200, PyVal.dict
          [("response_text", PyVal.str (pyStrip "Все отлично"))]⟩ ∧
    (⟨200, PyVal.dict
        [("response_text", PyVal.str (pyStrip "Все отлично"))]⟩ : HttpResponse).body
      = PyVal.dict [("response_text", PyVal.str (pyStrip "Все отлично"))] :=
  ⟨by decide, by decide, rfl,
   c3_reply_trimmed exampleReq "Все отлично"
     ⟨200, PyVal.dict
        [("response_text", PyVal.str (pyStrip "Все отлично"))]⟩
     (by decide) (by decide) rfl rfl⟩

/-- C4 counterexample: at an explicit well-formed request, the agent raw
output equal to the sentinel and the agent raw output equal to the empty
string produce the SAME response_text value (null) in the success
response body, refuting the claim that they produce different values. -/
theorem c4_not_distinguished_counterexample :
    (handle_process_message exampleReq
        (.ok (some ⟨"NO_RESPONSE"⟩))).response
      = .ok ⟨200, PyVal.dict [("response_text", PyVal.none)]⟩ ∧
    (handle_process_message exampleReq (.ok (some ⟨""⟩))).response
      = .ok ⟨200, PyVal.dict [("response_text", PyVal.none)]⟩ :=
  ⟨rfl, rfl⟩

/-- C4 amended: the handler maps a raw output stripping to the sentinel
and the empty-string raw output to the same response_text value, null:
the empty reply is treated as a no-reply signal too, so the sentinel is
distinguished only from non-empty non-sentinel replies. -/
theorem c4_sentinel_and_empty_both_null (req : PyRequest) (raw : String)
    (resp : HttpResponse)
    (hraw : raw = "" ∨ pyStrip raw = NO_RESPONSE_MARKER)
    (hok : (handle_process_message req (.ok (some ⟨raw⟩))).response = .ok resp)
    (hst : resp.status = 200) :
    resp.body = PyVal.dict [("response_text", PyVal.none)] := by
  rcases handle_ok_response_cases req _ resp hok with h4 | h5 | ⟨_, cr, hcr, hbody⟩
  · omega
  · omega
  · cases hcr
    rw [hbody]
    rcases hraw with hraw | hraw <;> simp [interpretResult, hraw]

/-- C4 amended witness: the empty-string raw output at a concrete
request yields the null response_text. -/
theorem c4_sentinel_and_empty_both_null_witness :
    (("" : String) = "" ∨ pyStrip "" = NO_RESPONSE_MARKER) ∧
    (handle_process_message exampleReq (.ok (some ⟨""⟩))).response
      = .ok ⟨200, PyVal.dict [("response_text", PyVal.none)]⟩ ∧
    (⟨200, PyVal.dict [("response_text", PyVal.none)]⟩ : HttpResponse).body
      = PyVal.dict [("response_text", PyVal.none)] :=
  ⟨Or.inl rfl, rfl,
   c4_sentinel_and_empty_both_null exampleReq ""
     ⟨200, PyVal.dict [("response_text", PyVal.none)]⟩ (Or.inl rfl) rfl rfl⟩
/-- Does the entry list of a dict carry the key `k`? -/
def hasKey (d : List (String × PyVal)) (k : String) : Bool :=
  d.any (fun p => p.1 == k)

/-- C5 counterexample: a JSON body that is the array of the three field
names has none of the fields chat_id, new_message, history, yet the
handler does not return the documented 400 response: the Python
containment test accepts the array, and the subsequent subscription
raises an uncaught TypeError. -/
theorem c5_nonobject_body_counterexample :
    (handle_process_message
        ⟨true, .list [.str "chat_id", .str "new_message", .str "history"]⟩
        (.ok Option.none)).response = .error .typeError ∧
    (handle_process_message
        ⟨true, .list [.str "chat_id", .str "new_message", .str "history"]⟩
        (.ok Option.none)).response
      ≠ .ok ⟨400, errBody "Missing required fields: chat_id, new_message, history"⟩ := by
  have hEval : (handle_process_message
      ⟨true, .list [.str "chat_id", .str "new_message", .str "history"]⟩
      (.ok Option.none)).response = Except.error PyErr.typeError := rfl
  refine ⟨hEval, fun hcontra => ?_⟩
  rw [hEval] at hcontra
  exact Except.noConfusion hcontra

/-- C5 amended: for every JSON request body that is an object (dict) in
which at least one of the fields chat_id, new_message, history is
absent, the handler returns status 400 with the documented missing-fields
error body, regardless of the values of the fields present, without
running the formatter and without invoking the agent runtime. -/
theorem c5_object_missing_fields_400 (d : List (String × PyVal))
    (agent : Except PyErr (Option CrewOutput))
    (h : hasKey d "chat_id" = false ∨ hasKey d "new_message" = false ∨
         hasKey d "history" = false) :
    handle_process_message ⟨true, .dict d⟩ agent
      = ⟨.ok ⟨400, errBody "Missing required fields: chat_id, new_message, history"⟩,
         false, false⟩ := by
  have hval : validateMissing (PyVal.dict d) = Except.ok true := by
    unfold validateMissing
    by_cases htr : (PyVal.dict d).truthy = false
    · rw [if_pos htr]
    · rw [if_neg htr]
      simp only [PyVal.pyContains]
      rcases h with h | h | h
      · have hc : (d.any fun p => p.1 == "chat_id") = false := h
        rw [hc]
      · have hc : (d.any fun p => p.1 == "new_message") = false := h
        cases h1 : d.any fun p => p.1 == "chat_id" with
        | false => rfl
        | true => rw [hc]
      · have hc : (d.any fun p => p.1 == "history") = false := h
        cases h1 : d.any fun p => p.1 == "chat_id" with
        | false => rfl
        | true =>
          cases h2 : d.any fun p => p.1 == "new_message" with
          | false => rfl
          | true =>
            rw [hc]
            rfl
  unfold handle_process_message
  simp [hval]

/-- C5 amended witness: a concrete object body carrying only the history
field is rejected with the 400 missing-fields response. -/
theorem c5_object_missing_fields_400_witness :
    (hasKey [("history", PyVal.int 1)] "chat_id" = false ∨
     hasKey [("history", PyVal.int 1)] "new_message" = false ∨
     hasKey [("history", PyVal.int 1)] "history" = false) ∧
    handle_process_message ⟨true, .dict [("history", PyVal.int 1)]⟩
        (.ok Option.none)
      = ⟨.ok ⟨400, errBody "Missing required fields: chat_id, new_message, history"⟩,
         false, false⟩ :=
  ⟨Or.inl rfl,
   c5_object_missing_fields_400 [("history", PyVal.int 1)] (.ok Option.none)
     (Or.inl rfl)⟩

/-- The concrete request body of the C7 witness: all three fields are
present, but the single history entry has no sender field, so the
formatter raises a KeyError. -/
def c7data : PyVal :=
  .dict [("chat_id", .int 1),
         ("new_message", msgVal "Alice" "hi" []),
         ("history", .list [.dict [("text", .str "hello")]])]

/-- C7: for every request that passes validation but whose history or
new message makes the formatter raise, the handler returns status 500
with the static formatting-error body — the same body for every raised
exception, so the exception text never reaches the caller — and the
agent runtime is not invoked. -/
theorem c7_formatting_error_500 (data : PyVal)
    (agent : Except PyErr (Option CrewOutput))
    (cid nm hist : PyVal) (e : PyErr)
    (hv : validateMissing data = .ok false)
    (h1 : data.getItem "chat_id" = .ok cid)
    (h2 : data.getItem "new_message" = .ok nm)
    (h3 : data.getItem "history" = .ok hist)
    (hf : format_chat_data hist nm = .error e) :
    handle_process_message ⟨true, data⟩ agent
      = ⟨.ok ⟨500, errBody "Internal server error formatting data"⟩, false, true⟩ := by
  unfold handle_process_message
  simp [hv, h1, h2, h3, hf]

/-- C7 witness: a history entry missing the sender field yields the 500
formatting-error response. -/
theorem c7_formatting_error_500_witness :
    validateMissing c7data = .ok false ∧
    c7data.getItem "chat_id" = .ok (.int 1) ∧
    c7data.getItem "new_message" = .ok (msgVal "Alice" "hi" []) ∧
    c7data.getItem "history" = .ok (.list [.dict [("text", .str "hello")]]) ∧
    format_chat_data (.list [.dict [("text", .str "hello")]])
        (msgVal "Alice" "hi" []) = .error (.keyError "sender") ∧
    handle_process_message ⟨true, c7data⟩ (.ok Option.none)
      = ⟨.ok ⟨500, errBody "Internal server error formatting data"⟩, false, true⟩ :=
  ⟨rfl, rfl, rfl, rfl, rfl,
   c7_formatting_error_500 c7data (.ok Option.none) (.int 1)
     (msgVal "Alice" "hi" []) (.list [.dict [("text", .str "hello")]])
     (.keyError "sender") rfl rfl rfl rfl rfl⟩

/-- C8: for every request on which the handler actually invokes the
agent runtime and the invocation raises, the handler catches the
exception and responds with status 500 and the static processing-error
body; in particular the response is a returned value, not an escaping
exception. -/
theorem c8_agent_exception_500 (req : PyRequest) (e : PyErr)
    (hinv : (handle_process_message req (.error e)).agentInvoked = true) :
    (handle_process_message req (.error e)).response
      = .ok ⟨500, errBody "Internal server error processing message with AI"⟩ := by
  unfold handle_process_message at hinv ⊢
  repeat' split at hinv
  all_goals simp_all

/-- C8 witness: a raised agent exception on the worked example yields
the 500 processing-error response. -/
theorem c8_agent_exception_500_witness :
    (handle_process_message exampleReq (.error .typeError)).agentInvoked = true ∧
    (handle_process_message exampleReq (.error .typeError)).response
      = .ok ⟨500, errBody "Internal server error processing message with AI"⟩ :=
  ⟨rfl, c8_agent_exception_500 exampleReq .typeError rfl⟩

/-- C9: field presence is the only validation — for every JSON object
body carrying all three keys chat_id, new_message, history, the handler
never answers 400: it produces a response, and that response is a 200
success or a 500 internal error, never the 400 validation error, even
when the fields have the wrong shape. -/
theorem c9_presence_only_validation (d : List (String × PyVal))
    (agent : Except PyErr (Option CrewOutput))
    (h1 : hasKey d "chat_id" = true)
    (h2 : hasKey d "new_message" = true)
    (h3 : hasKey d "history" = true) :
    ∃ resp, (handle_process_message ⟨true, .dict d⟩ agent).response = .ok resp ∧
      (resp.status = 200 ∨ resp.status = 500) ∧ resp.status ≠ 400 := by
  have htr : ¬ ((PyVal.dict d).truthy = false) := by
    cases d with
    | nil => simp [hasKey] at h1
    | cons p tl => simp [PyVal.truthy]
  have hval : validateMissing (PyVal.dict d) = Except.ok false := by
    unfold validateMissing
    rw [if_neg htr]
    simp only [PyVal.pyContains]
    have h1a : (d.any fun p => p.1 == "chat_id") = true := h1
    have h2a : (d.any fun p => p.1 == "new_message") = true := h2
    have h3a : (d.any fun p => p.1 == "history") = true := h3
    rw [h1a, h2a]
    simp [h3a]
  have key_getItem : ∀ k, hasKey d k = true →
      ∃ v, (PyVal.dict d).getItem k = Except.ok v := by
    intro k hk
    unfold hasKey at hk
    rw [List.any_eq_true] at hk
    obtain ⟨p, hp, hpk⟩ := hk
    have hfind : (d.find? (fun q => q.1 == k)).isSome :=
      List.find?_isSome.mpr ⟨p, hp, hpk⟩
    obtain ⟨q, hq⟩ := Option.isSome_iff_exists.mp hfind
    exact ⟨q.2, by simp [PyVal.getItem, hq]⟩
  obtain ⟨v1, hv1⟩ := key_getItem "chat_id" h1
  obtain ⟨v2, hv2⟩ := key_getItem "new_message" h2
  obtain ⟨v3, hv3⟩ := key_getItem "history" h3
  unfold handle_process_message
  simp only [hval, hv1, hv2, hv3]
  cases hf : format_chat_data v3 v2 with
  | error e =>
    exact ⟨⟨500, errBody "Internal server error formatting data"⟩,
      by simp [hf], by simp⟩
  | ok pr =>
    cases agent with
    | error e =>
      exact ⟨⟨500, errBody "Internal server error processing message with AI"⟩,
        by simp [hf], by simp⟩
    | ok cr =>
      exact ⟨⟨200, .dict [("response_text", interpretResult cr)]⟩,
        by simp [hf], by simp⟩

/-- C9 witness: an object body with all three keys but wrongly shaped
new_message and history fields is not rejected with 400; it surfaces as
a non-400 response (here the 500 formatting error). -/
theorem c9_presence_only_validation_witness :
    hasKey [("chat_id", PyVal.int 7), ("new_message", PyVal.int 0),
            ("history", PyVal.str "zz")] "chat_id" = true ∧
    hasKey [("chat_id", PyVal.int 7), ("new_message", PyVal.int 0),
            ("history", PyVal.str "zz")] "new_message" = true ∧
    hasKey [("chat_id", PyVal.int 7), ("new_message", PyVal.int 0),
            ("history", PyVal.str "zz")] "history" = true ∧
    ∃ resp, (handle_process_message
        ⟨true, .dict [("chat_id", PyVal.int 7), ("new_message", PyVal.int 0),
                      ("history", PyVal.str "zz")]⟩
        (.ok Option.none)).response = .ok resp ∧
      (resp.status = 200 ∨ resp.status = 500) ∧ resp.status ≠ 400 :=
  ⟨rfl, rfl, rfl,
   c9_presence_only_validation
     [("chat_id", PyVal.int 7), ("new_message", PyVal.int 0),
      ("history", PyVal.str "zz")] (.ok Option.none) rfl rfl rfl⟩

end BroAi
